import Mathlib

/-!
Verification of the agrivoltaics simulation core (`app/services/simulation_service.py`
and `app/services/ml_service.py`) against its natural-language specification.

The per-day models are shallowly embedded over `ℚ` (the Python code computes with
floats whose constants here — 0.2, 1.7, −0.004, 0.7, 0.85, … — are exact decimals,
so exact rational arithmetic mirrors the formulas; trigonometric inputs of the
shadow model are abstracted as the rational value that the float `sin`/`tan` call
produced, see `ShadowCfg` below).  Keys that a Python `dict.get(key, default)` or
a pandas `"key" in day` test may find absent are `Option` fields; `Option.getD`
embeds the `.get` default.  The water-balance model, whose claim is about IEEE NaN
propagation through `np.sqrt` of a negative number, is embedded over `Option ℝ`
with `none` playing NaN.
-/

namespace Agrivoltaics

/-- Weather record for one day, as consumed by the per-day models.  A `none`
field models a key absent from the day's record (`"key" in day` false /
`day.get(key, default)` falling back to its default). -/
structure WeatherDay where
  temperature_high : Option ℚ := none
  temperature_low : Option ℚ := none
  precipitation : Option ℚ := none
  cloud_cover : Option ℚ := none
  solar_radiation : Option ℚ := none
  humidity : Option ℚ := none
  wind_speed : Option ℚ := none

/-- Configuration dictionary fields read by the energy and crop models.  A `none`
field models an absent key, read through `config.get(key, default)`. -/
structure Config where
  panel_efficiency : Option ℚ := none
  panel_area : Option ℚ := none
  num_panels : Option ℚ := none
  temp_coefficient : Option ℚ := none
  reference_temp : Option ℚ := none
  irrigation_amount : Option ℚ := none
  irrigation_efficiency : Option ℚ := none
  shade_impact : Option ℚ := none
  shadow_coverage_percent : Option ℚ := none
  planting_density : Option ℚ := none
  field_size : Option ℚ := none

/-- Crop physiological parameters (the `crop_data` dictionary passed to
`ml_service` routines). -/
structure CropData where
  growth_period_days : ℕ
  optimal_temp_min : ℚ
  optimal_temp_max : ℚ
  water_requirement_mm_day : ℚ
  shade_tolerance : ℚ
  typical_yield_per_plant : ℚ

/-- Per-day energy of the fallback path of
`SimulationService._simulate_energy_production` (simulation_service.py lines
131-152): `efficiency_factor` starts at `panel_efficiency`, is incremented by
`temp_coeff * (temperature_high - reference_temp)` when the day has a
`temperature_high` key, multiplied by `1 - cloud_cover * 0.7` when the day has a
`cloud_cover` key, and the energy is
`solar_radiation * panel_area * num_panels * efficiency_factor` when the day has
a `solar_radiation` key, else `0`. -/
def simEnergyDay (config : Config) (day : WeatherDay) : ℚ :=
  let panel_efficiency := config.panel_efficiency.getD (1/5)
  let panel_area := config.panel_area.getD (17/10)
  let num_panels := config.num_panels.getD 100
  let eff1 :=
    match day.temperature_high with
    | some th =>
        panel_efficiency +
          config.temp_coefficient.getD (-(4/1000)) * (th - config.reference_temp.getD 25)
    | none => panel_efficiency
  let eff2 :=
    match day.cloud_cover with
    | some cc => eff1 * (1 - cc * (7/10))
    | none => eff1
  match day.solar_radiation with
  | some sr => sr * panel_area * num_panels * eff2
  | none => 0

/-- Per-day energy of `MLService._simplified_energy_model` (ml_service.py lines
323-349): multiplicative temperature derating with hard-coded coefficient
`-0.004` and reference `25`, applied to the average of `temperature_high`
(default 25) and `temperature_low` (default 15); `solar_radiation` defaults to
`5` and `cloud_cover` to `0` when absent. -/
def mlEnergyDay (config : Config) (day : WeatherDay) : ℚ :=
  let panel_efficiency := config.panel_efficiency.getD (1/5)
  let panel_area := config.panel_area.getD (17/10)
  let num_panels := config.num_panels.getD 100
  let solar_radiation := day.solar_radiation.getD 5
  let temp_avg := (day.temperature_high.getD 25 + day.temperature_low.getD 15) / 2
  let temp_factor := 1 + (-(4/1000)) * (temp_avg - 25)
  let cloud_factor := 1 - day.cloud_cover.getD 0 * (7/10)
  solar_radiation * panel_area * num_panels * panel_efficiency * temp_factor * cloud_factor

/-- Modelled from the spec (§4.2) / claim C1 wording, for comparison with the two
source functions above: `efficiency_factor = panel_efficiency * (1 +
temp_coefficient * (temperature_high - reference_temp)) * (1 - cloud_cover *
0.7)` and `energy = solar_radiation * panel_area * num_panels *
efficiency_factor`. -/
def specEnergyDay (config : Config) (day : WeatherDay) : ℚ :=
  let panel_efficiency := config.panel_efficiency.getD (1/5)
  let panel_area := config.panel_area.getD (17/10)
  let num_panels := config.num_panels.getD 100
  let temp_coefficient := config.temp_coefficient.getD (-(4/1000))
  let reference_temp := config.reference_temp.getD 25
  let efficiency_factor :=
    panel_efficiency *
      (1 + temp_coefficient * (day.temperature_high.getD 25 - reference_temp)) *
      (1 - day.cloud_cover.getD 0 * (7/10))
  day.solar_radiation.getD 5 * panel_area * num_panels * efficiency_factor

/-- Configuration used in several counterexamples: explicit defaults for the
panel parameters, every other key absent. -/
def cfgBase : Config :=
  { panel_efficiency := some (1/5), panel_area := some (17/10), num_panels := some 100 }

/-- Day with temperature_high 35 °C (10 °C above the reference), clear sky,
solar radiation 5 kWh/m²/day. -/
def dayHot35 : WeatherDay :=
  { temperature_high := some 35, temperature_low := some 15,
    cloud_cover := some 0, solar_radiation := some 5 }

/-- Claim C1 is false on the code: on a clear 35 °C day the spec formula gives
`5 * 1.7 * 100 * 0.2 * (1 - 0.004*10) = 163.2` kWh, but the
`_simulate_energy_production` fallback derates additively and yields `136` kWh,
and `_simplified_energy_model` derates with the average temperature (25 °C here,
no derating) and yields `170` kWh. -/
theorem c1_counterexample :
    simEnergyDay cfgBase dayHot35 = 136 ∧
    mlEnergyDay cfgBase dayHot35 = 170 ∧
    specEnergyDay cfgBase dayHot35 = 816/5 ∧
    simEnergyDay cfgBase dayHot35 ≠ specEnergyDay cfgBase dayHot35 ∧
    mlEnergyDay cfgBase dayHot35 ≠ specEnergyDay cfgBase dayHot35 := by
  refine ⟨?_, ?_, ?_, ?_, ?_⟩ <;>
    simp only [simEnergyDay, mlEnergyDay, specEnergyDay, cfgBase, dayHot35,
      Option.getD_some] <;>
    norm_num

/-- Amended claim C1: for every weather day with all relevant keys present, the
`_simulate_energy_production` fallback computes
`solar_radiation * panel_area * num_panels * ((panel_efficiency +
temp_coefficient*(temperature_high - reference_temp)) * (1 - cloud_cover*0.7))`
(additive temperature derating), while `_simplified_energy_model` computes
`solar_radiation * panel_area * num_panels * (panel_efficiency * (1 -
0.004*((temperature_high+temperature_low)/2 - 25)) * (1 - cloud_cover*0.7))`
(multiplicative derating from the average temperature). -/
theorem c1_amended (pe pa np tc rt th tl cc sr : ℚ) :
    simEnergyDay
        { panel_efficiency := some pe, panel_area := some pa, num_panels := some np,
          temp_coefficient := some tc, reference_temp := some rt }
        { temperature_high := some th, temperature_low := some tl,
          cloud_cover := some cc, solar_radiation := some sr }
      = sr * pa * np * ((pe + tc * (th - rt)) * (1 - cc * (7/10))) ∧
    mlEnergyDay
        { panel_efficiency := some pe, panel_area := some pa, num_panels := some np,
          temp_coefficient := some tc, reference_temp := some rt }
        { temperature_high := some th, temperature_low := some tl,
          cloud_cover := some cc, solar_radiation := some sr }
      = sr * pa * np * (pe * (1 + (-(4/1000)) * ((th + tl)/2 - 25)) * (1 - cc * (7/10))) := by
  constructor
  · simp only [simEnergyDay, Option.getD_some]
  · simp only [mlEnergyDay, Option.getD_some]
    ring

/-- Hot day used to refute claim C4: both temperatures 275 °C, clear sky,
positive solar radiation. -/
def dayHot275 : WeatherDay :=
  { temperature_high := some 275, temperature_low := some 275,
    cloud_cover := some 0, solar_radiation := some 5 }

/-- Claim C4 is false on the code: with cloud_cover 0, solar_radiation 5 > 0 and
panel_efficiency 0.2 > 0 (positive area and panel count), a day hot enough to
drive the temperature derating to or below zero makes the
`_simulate_energy_production` fallback energy negative (−680 kWh) and the
`_simplified_energy_model` energy zero — not strictly positive. -/
theorem c4_counterexample :
    cfgBase.panel_efficiency = some (1/5) ∧ (0:ℚ) < 1/5 ∧
    dayHot275.cloud_cover = some 0 ∧ dayHot275.solar_radiation = some 5 ∧ (0:ℚ) < 5 ∧
    simEnergyDay cfgBase dayHot275 = -680 ∧
    mlEnergyDay cfgBase dayHot275 = 0 ∧
    ¬ 0 < simEnergyDay cfgBase dayHot275 ∧
    ¬ 0 < mlEnergyDay cfgBase dayHot275 := by
  refine ⟨rfl, by norm_num, rfl, rfl, by norm_num, ?_, ?_, ?_, ?_⟩ <;>
    simp only [simEnergyDay, mlEnergyDay, cfgBase, dayHot275, Option.getD_some] <;>
    norm_num

/-- Amended claim C4: on a clear day (cloud_cover = 0) with solar_radiation > 0
and positive panel area and count, the fallback energy of
`_simulate_energy_production` is strictly positive provided additionally its
additively derated efficiency `panel_efficiency +
temp_coefficient*(temperature_high - reference_temp)` is positive, and the
`_simplified_energy_model` energy is strictly positive provided
`panel_efficiency > 0` and its temperature factor
`1 - 0.004*((temperature_high+temperature_low)/2 - 25)` is positive; without a
temperature bound, positivity can fail (`c4_counterexample`). -/
theorem c4_amended (pe pa np tc rt th tl sr : ℚ)
    (hsr : 0 < sr) (hpa : 0 < pa) (hnp : 0 < np) :
    (0 < pe + tc * (th - rt) →
      0 < simEnergyDay
        { panel_efficiency := some pe, panel_area := some pa, num_panels := some np,
          temp_coefficient := some tc, reference_temp := some rt }
        { temperature_high := some th, temperature_low := some tl,
          cloud_cover := some 0, solar_radiation := some sr }) ∧
    (0 < pe → 0 < 1 + (-(4/1000)) * ((th + tl)/2 - 25) →
      0 < mlEnergyDay
        { panel_efficiency := some pe, panel_area := some pa, num_panels := some np,
          temp_coefficient := some tc, reference_temp := some rt }
        { temperature_high := some th, temperature_low := some tl,
          cloud_cover := some 0, solar_radiation := some sr }) := by
  constructor
  · intro heff
    simp only [simEnergyDay, Option.getD_some]
    have hc : (1 : ℚ) - 0 * (7/10) = 1 := by norm_num
    rw [hc, mul_one]
    exact mul_pos (mul_pos (mul_pos hsr hpa) hnp) heff
  · intro hpe htf
    simp only [mlEnergyDay, Option.getD_some]
    have hc : (1 : ℚ) - 0 * (7/10) = 1 := by norm_num
    rw [hc, mul_one]
    exact mul_pos (mul_pos (mul_pos (mul_pos hsr hpa) hnp) hpe) htf

/-- Witness for `c4_amended` at solar_radiation 5, panel_area 1.7, 100 panels,
panel_efficiency 0.2, default derating coefficients, a 25/15 °C day. -/
theorem c4_witness :
    0 < simEnergyDay
        { panel_efficiency := some (1/5), panel_area := some (17/10), num_panels := some 100,
          temp_coefficient := some (-(4/1000)), reference_temp := some 25 }
        { temperature_high := some 25, temperature_low := some 15,
          cloud_cover := some 0, solar_radiation := some 5 } ∧
    0 < mlEnergyDay
        { panel_efficiency := some (1/5), panel_area := some (17/10), num_panels := some 100,
          temp_coefficient := some (-(4/1000)), reference_temp := some 25 }
        { temperature_high := some 25, temperature_low := some 15,
          cloud_cover := some 0, solar_radiation := some 5 } := by
  have h := c4_amended (1/5) (17/10) 100 (-(4/1000)) 25 25 15 5
    (by norm_num) (by norm_num) (by norm_num)
  exact ⟨h.1 (by norm_num), h.2 (by norm_num) (by norm_num)⟩

/-- Temperature stress of `MLService._simplified_crop_growth_model`
(ml_service.py lines 357-370): deviation of the average temperature from the
nearer optimal bound, penalized by a tenth per degree, then clamped into
[0.1, 1.0]. -/
def mlTempStress (crop : CropData) (day : WeatherDay) : ℚ :=
  let temp_avg := (day.temperature_high.getD 25 + day.temperature_low.getD 15) / 2
  let s :=
    if temp_avg < crop.optimal_temp_min then 1 - (crop.optimal_temp_min - temp_avg) / 10
    else if crop.optimal_temp_max < temp_avg then 1 - (temp_avg - crop.optimal_temp_max) / 10
    else 1
  max (1/10) (min 1 s)

/-- Water stress of `MLService._simplified_crop_growth_model` (ml_service.py
lines 372-380): `effective_water = precipitation + irrigation_amount *
irrigation_efficiency` (defaults 0, 5 and 0.85), `min(1, effective_water /
water_requirement)` floored at 0.1. -/
def mlWaterStress (config : Config) (crop : CropData) (day : WeatherDay) : ℚ :=
  let effective_water :=
    day.precipitation.getD 0 +
      config.irrigation_amount.getD 5 * config.irrigation_efficiency.getD (17/20)
  max (1/10) (min 1 (effective_water / crop.water_requirement_mm_day))

/-- Shade stress of `MLService._simplified_crop_growth_model` (ml_service.py
lines 382-385): `1 - (shadow_coverage_percent/100) * (1 - shade_tolerance)`,
with no floor or ceiling applied. -/
def mlShadeStress (config : Config) (crop : CropData) : ℚ :=
  1 - config.shadow_coverage_percent.getD 30 / 100 * (1 - crop.shade_tolerance)

/-- Per-day growth factor of `MLService._simplified_crop_growth_model`: product
of the three stress factors. -/
def mlGrowthFactor (config : Config) (crop : CropData) (day : WeatherDay) : ℚ :=
  mlTempStress crop day * mlWaterStress config crop day * mlShadeStress config crop

/-- Temperature stress of the fallback path of
`SimulationService._simulate_crop_yield` (simulation_service.py lines 208-222):
same formula as `mlTempStress` with the hard-coded optimal range 15-25 °C, but
`0.8` when the day lacks a temperature key. -/
def simTempStress (day : WeatherDay) : ℚ :=
  match day.temperature_high, day.temperature_low with
  | some th, some tl =>
      let avg_temp := (th + tl) / 2
      let s :=
        if avg_temp < 15 then 1 - (15 - avg_temp) / 10
        else if 25 < avg_temp then 1 - (avg_temp - 25) / 10
        else 1
      max (1/10) (min 1 s)
  | _, _ => 4/5

/-- Water stress of the fallback path of
`SimulationService._simulate_crop_yield` (simulation_service.py lines 224-233):
`effective_water = (precipitation + irrigation_amount) * irrigation_efficiency`
— the efficiency multiplies the precipitation as well — against the hard-coded
requirement 4.5 mm/day; `0.8` when the day lacks a precipitation key.  The
irrigation_amount default here is 0 (it is 5 in `mlWaterStress`). -/
def simWaterStress (config : Config) (day : WeatherDay) : ℚ :=
  match day.precipitation with
  | some p =>
      let effective_water :=
        (p + config.irrigation_amount.getD 0) * config.irrigation_efficiency.getD (17/20)
      max (1/10) (min 1 (effective_water / (9/2)))
  | none => 4/5

/-- Shade stress of the fallback path of
`SimulationService._simulate_crop_yield` (simulation_service.py line 237):
`1 - shade_impact * (1 - shade_tolerance)` with shade_impact default 0.2 and the
hard-coded shade_tolerance 0.7; no floor. -/
def simShadeStress (config : Config) : ℚ :=
  1 - config.shade_impact.getD (1/5) * (1 - 7/10)

/-- Per-day growth factor of the `_simulate_crop_yield` fallback. -/
def simGrowthFactor (config : Config) (day : WeatherDay) : ℚ :=
  simTempStress day * simWaterStress config day * simShadeStress config

/-- Crop profile used by counterexamples: the hard-coded lettuce parameters of
`_simulate_crop_yield` and `_evaluate_configuration`, except where noted. -/
def lettuce : CropData :=
  { growth_period_days := 60, optimal_temp_min := 15, optimal_temp_max := 25,
    water_requirement_mm_day := 9/2, shade_tolerance := 7/10,
    typical_yield_per_plant := 1/4 }

/-- Lettuce profile with zero shade tolerance, used to drive the unfloored shade
stress to 0. -/
def lettuceNoShadeTol : CropData :=
  { lettuce with shade_tolerance := 0 }

/-- Configuration with full shadow coverage (100 %), every other key absent. -/
def cfgFullShade : Config := { shadow_coverage_percent := some 100 }

/-- Claim C2 is false on the code: the shade stress of
`_simplified_crop_growth_model` has no 0.1 floor.  With shadow_coverage_percent
= 100 and shade_tolerance = 0 it equals 0, so on a default day the combined
growth factor is 0, below the claimed lower bound 0.001. -/
theorem c2_counterexample :
    mlShadeStress cfgFullShade lettuceNoShadeTol = 0 ∧
    ¬ 1/10 ≤ mlShadeStress cfgFullShade lettuceNoShadeTol ∧
    mlGrowthFactor cfgFullShade lettuceNoShadeTol {} = 0 ∧
    ¬ 1/1000 ≤ mlGrowthFactor cfgFullShade lettuceNoShadeTol {} := by
  have h : mlShadeStress cfgFullShade lettuceNoShadeTol = 0 := by
    simp only [mlShadeStress, cfgFullShade, lettuceNoShadeTol, lettuce, Option.getD_some]
    norm_num
  refine ⟨h, by rw [h]; norm_num, ?_, ?_⟩
  · rw [mlGrowthFactor, h, mul_zero]
  · rw [mlGrowthFactor, h, mul_zero]; norm_num

/-- Bounds for a product of three factors, the first two in [0.1, 1], the third
in [s, 1] with s between 0.1 and 1. -/
theorem growth_product_bounds (a b c : ℚ)
    (ha1 : 1/10 ≤ a) (ha2 : a ≤ 1) (hb1 : 1/10 ≤ b) (hb2 : b ≤ 1)
    (hc1 : 1/10 ≤ c) (hc2 : c ≤ 1) :
    1/1000 ≤ a * b * c ∧ a * b * c ≤ 1 := by
  have ha0 : (0:ℚ) ≤ a := le_trans (by norm_num) ha1
  have hb0 : (0:ℚ) ≤ b := le_trans (by norm_num) hb1
  have hc0 : (0:ℚ) ≤ c := le_trans (by norm_num) hc1
  have hab1 : (1:ℚ)/100 ≤ a * b := by
    calc (1:ℚ)/100 = 1/10 * (1/10) := by norm_num
    _ ≤ a * b := mul_le_mul ha1 hb1 (by norm_num) ha0
  have hab2 : a * b ≤ 1 := mul_le_one₀ ha2 hb0 hb2
  constructor
  · calc (1:ℚ)/1000 = 1/100 * (1/10) := by norm_num
    _ ≤ a * b * c := mul_le_mul hab1 hc1 (by norm_num) (mul_nonneg ha0 hb0)
  · exact mul_le_one₀ hab2 hc0 hc2

/-- Amended claim C2: in both simplified crop models the temperature and water
stress factors are individually clamped into [0.1, 1.0] for every input, but the
shade stress is unclamped; the combined per-day growth factor therefore lies in
[0.001, 1.0] only under the extra assumption that the shade stress itself lies
in [0.1, 1.0] (it is 0 in `c2_counterexample`). -/
theorem c2_amended (config : Config) (crop : CropData) (day : WeatherDay) :
    (1/10 ≤ mlTempStress crop day ∧ mlTempStress crop day ≤ 1) ∧
    (1/10 ≤ mlWaterStress config crop day ∧ mlWaterStress config crop day ≤ 1) ∧
    (1/10 ≤ simTempStress day ∧ simTempStress day ≤ 1) ∧
    (1/10 ≤ simWaterStress config day ∧ simWaterStress config day ≤ 1) ∧
    (1/10 ≤ mlShadeStress config crop → mlShadeStress config crop ≤ 1 →
      1/1000 ≤ mlGrowthFactor config crop day ∧ mlGrowthFactor config crop day ≤ 1) ∧
    (1/10 ≤ simShadeStress config → simShadeStress config ≤ 1 →
      1/1000 ≤ simGrowthFactor config day ∧ simGrowthFactor config day ≤ 1) := by
  have clamp : ∀ s : ℚ, 1/10 ≤ max (1/10) (min 1 s) ∧ max (1/10) (min 1 s) ≤ 1 :=
    fun s => ⟨le_max_left _ _, max_le (by norm_num) (min_le_left _ _)⟩
  have hmlT : 1/10 ≤ mlTempStress crop day ∧ mlTempStress crop day ≤ 1 := by
    rw [mlTempStress]; exact clamp _
  have hmlW : 1/10 ≤ mlWaterStress config crop day ∧ mlWaterStress config crop day ≤ 1 := by
    rw [mlWaterStress]; exact clamp _
  have hsimT : 1/10 ≤ simTempStress day ∧ simTempStress day ≤ 1 := by
    rw [simTempStress]
    rcases day.temperature_high with _ | th
    · exact ⟨by norm_num, by norm_num⟩
    · rcases day.temperature_low with _ | tl
      · exact ⟨by norm_num, by norm_num⟩
      · exact clamp _
  have hsimW : 1/10 ≤ simWaterStress config day ∧ simWaterStress config day ≤ 1 := by
    rw [simWaterStress]
    rcases day.precipitation with _ | p
    · exact ⟨by norm_num, by norm_num⟩
    · exact clamp _
  refine ⟨hmlT, hmlW, hsimT, hsimW, ?_, ?_⟩
  · intro h1 h2
    exact growth_product_bounds _ _ _ hmlT.1 hmlT.2 hmlW.1 hmlW.2 h1 h2
  · intro h1 h2
    exact growth_product_bounds _ _ _ hsimT.1 hsimT.2 hsimW.1 hsimW.2 h1 h2

/-- Witness for `c2_amended` at the default configuration (shadow coverage 30 %,
shade tolerance 0.7, shade_impact 0.2) and an empty weather record. -/
theorem c2_witness :
    1/1000 ≤ mlGrowthFactor {} lettuce {} ∧ mlGrowthFactor {} lettuce {} ≤ 1 ∧
    1/1000 ≤ simGrowthFactor {} {} ∧ simGrowthFactor {} {} ≤ 1 := by
  have h := c2_amended {} lettuce {}
  have hml := h.2.2.2.2.1
    (by simp only [mlShadeStress, lettuce, Option.getD_none]; norm_num)
    (by simp only [mlShadeStress, lettuce, Option.getD_none]; norm_num)
  have hsim := h.2.2.2.2.2
    (by simp only [simShadeStress, Option.getD_none]; norm_num)
    (by simp only [simShadeStress, Option.getD_none]; norm_num)
  exact ⟨hml.1, hml.2, hsim.1, hsim.2⟩

/-- Modelled from the spec (§4.3) / claim C3 wording, for comparison with the
two source water-stress computations: `effective_water = precipitation +
irrigation_amount * irrigation_efficiency; stress = min(1, effective_water /
water_requirement_mm_day)`, floored at 0.1 (defaults as in the simulation
fallback: irrigation_amount 0, irrigation_efficiency 0.85). -/
def specWaterStress (config : Config) (crop : CropData) (day : WeatherDay) : ℚ :=
  let effective_water :=
    day.precipitation.getD 0 +
      config.irrigation_amount.getD 0 * config.irrigation_efficiency.getD (17/20)
  max (1/10) (min 1 (effective_water / crop.water_requirement_mm_day))

/-- Configuration with no irrigation and explicit 0.85 irrigation efficiency. -/
def cfgNoIrrigation : Config :=
  { irrigation_amount := some 0, irrigation_efficiency := some (17/20) }

/-- Day with exactly the lettuce water requirement (4.5 mm) of precipitation. -/
def dayRain45 : WeatherDay := { precipitation := some (9/2) }

/-- Claim C3 is false on the `_simulate_crop_yield` fallback: with 4.5 mm of
precipitation and no irrigation, the claimed formula leaves precipitation
unscaled and gives stress `min(1, 4.5/4.5) = 1`, but the fallback multiplies the
precipitation by the irrigation efficiency too and gives `0.85`.  (The
`_simplified_crop_growth_model` value agrees with the claim here.) -/
theorem c3_counterexample :
    specWaterStress cfgNoIrrigation lettuce dayRain45 = 1 ∧
    simWaterStress cfgNoIrrigation dayRain45 = 17/20 ∧
    simWaterStress cfgNoIrrigation dayRain45 ≠ specWaterStress cfgNoIrrigation lettuce dayRain45 ∧
    mlWaterStress cfgNoIrrigation lettuce dayRain45 = specWaterStress cfgNoIrrigation lettuce dayRain45 := by
  refine ⟨?_, ?_, ?_, ?_⟩ <;>
    simp only [specWaterStress, simWaterStress, mlWaterStress, cfgNoIrrigation, dayRain45,
      lettuce, Option.getD_some] <;>
    norm_num

/-- Amended claim C3: `_simplified_crop_growth_model` computes the water stress
exactly as claimed — `max(0.1, min(1, (precipitation + irrigation_amount *
irrigation_efficiency) / water_requirement))` — but the `_simulate_crop_yield`
fallback computes `max(0.1, min(1, ((precipitation + irrigation_amount) *
irrigation_efficiency) / 4.5))`, scaling the precipitation by the irrigation
efficiency as well (and with hard-coded water requirement 4.5 mm/day). -/
theorem c3_amended (p ia ie : ℚ) (crop : CropData) :
    mlWaterStress { irrigation_amount := some ia, irrigation_efficiency := some ie }
        crop { precipitation := some p }
      = max (1/10) (min 1 ((p + ia * ie) / crop.water_requirement_mm_day)) ∧
    simWaterStress { irrigation_amount := some ia, irrigation_efficiency := some ie }
        { precipitation := some p }
      = max (1/10) (min 1 (((p + ia) * ie) / (9/2))) := by
  constructor
  · simp only [mlWaterStress, Option.getD_some]
  · simp only [simWaterStress, Option.getD_some]

/-- Python division: raises ZeroDivisionError on a zero denominator, embedded
as `Except Unit`. -/
def pydiv (a b : ℚ) : Except Unit ℚ :=
  if b = 0 then .error () else .ok (a / b)

/-- Total yield of `MLService.predict_crop_yield` (ml_service.py lines
115-139): base yield `typical_yield_per_plant * planting_density * field_size`
times the average growth factor over the first
`min(growth_period_days, len(daily_growth))` days; the average divides by that
count, which Python raises on when it is zero. -/
def predict_crop_yield (config : Config) (crop : CropData) (daily_growth : List ℚ) :
    Except Unit ℚ :=
  let base_yield :=
    crop.typical_yield_per_plant * config.planting_density.getD 25 *
      config.field_size.getD 10000
  let growth_period := min crop.growth_period_days daily_growth.length
  (pydiv (daily_growth.take growth_period).sum growth_period).map
    fun avg_growth_factor => base_yield * avg_growth_factor

/-- Total yield of the fallback path of
`SimulationService._simulate_crop_yield` (simulation_service.py lines 245-250):
same averaging with the hard-coded growth period 60 and yield-per-plant 0.25. -/
def simCropYieldTotal (config : Config) (daily_growth : List ℚ) : Except Unit ℚ :=
  let harvest_days := min 60 daily_growth.length
  (pydiv (daily_growth.take harvest_days).sum harvest_days).map
    fun avg_growth_factor =>
      1/4 * config.planting_density.getD 25 * config.field_size.getD 10000 * avg_growth_factor

/-- Claim C10: on the empty weather series the daily growth list is empty, the
averaging window `min(growth_period_days, 0)` is 0, and both
`predict_crop_yield` and the `_simulate_crop_yield` fallback raise a
division-by-zero error instead of returning a yield; a non-empty series (with a
positive growth period) is required for a defined result. -/
theorem c10_empty_series_division (config : Config) (crop : CropData) :
    predict_crop_yield config crop [] = .error () ∧
    simCropYieldTotal config [] = .error () ∧
    (0 < crop.growth_period_days → ∀ g : ℚ, ∀ rest : List ℚ,
      ∃ y : ℚ, predict_crop_yield config crop (g :: rest) = .ok y) := by
  refine ⟨?_, ?_, ?_⟩
  · simp [predict_crop_yield, pydiv, Except.map]
  · simp [simCropYieldTotal, pydiv, Except.map]
  · intro hgp g rest
    have hmin : min crop.growth_period_days (g :: rest).length ≠ 0 := by
      have h0 : 0 < min crop.growth_period_days (g :: rest).length := lt_min hgp (by simp)
      omega
    have hq : ((min crop.growth_period_days (g :: rest).length : ℕ) : ℚ) ≠ 0 := by
      exact_mod_cast hmin
    refine ⟨crop.typical_yield_per_plant * config.planting_density.getD 25 *
      config.field_size.getD 10000 *
      (((g :: rest).take (min crop.growth_period_days (g :: rest).length)).sum /
        (min crop.growth_period_days (g :: rest).length : ℚ)), ?_⟩
    have hq2 : ((crop.growth_period_days : ℚ) ⊓ ((g :: rest).length : ℚ)) ≠ 0 := by
      rw [← Nat.cast_min]; exact_mod_cast hmin
    simp only [predict_crop_yield, pydiv, Nat.cast_min, if_neg hq2, Except.map]

/-- Witness for `c10_empty_series_division` at the default configuration and
the hard-coded lettuce profile: the empty series errors, a one-day series
yields a value. -/
theorem c10_witness :
    predict_crop_yield {} lettuce [] = .error () ∧
    simCropYieldTotal {} [] = .error () ∧
    ∃ y : ℚ, predict_crop_yield {} lettuce [1] = .ok y := by
  have h := c10_empty_series_division {} lettuce
  exact ⟨h.1, h.2.1, h.2.2 (by norm_num [lettuce]) 1 []⟩

/-- Shadow-model configuration (`_simulate_shadow_patterns` and
`calculate_shadow_patterns` read the same keys with the same defaults).  The
per-day trigonometric inputs — `tan(radians(90 - elevation_angle -
panel_angle))` and `sin(radians(panel_angle))` — are abstracted as explicit
rational arguments `tanArg` and `sinAngle` below: the elevation formula lets
`tanArg` take any real value as latitude and day-of-year vary, and for
panel_angle ∈ [0°, 90°] the value `sinAngle` lies in [0, 1]. -/
structure ShadowCfg where
  panel_height : Option ℚ := none
  panel_width : Option ℚ := none
  panel_rows : Option ℚ := none
  panels_per_row : Option ℚ := none
  field_size : Option ℚ := none

/-- Shadow length at noon for one day (both shadow models, simulation_service.py
lines 301-302 / ml_service.py lines 181-182): `panel_height * tan(...)` clamped
to be nonnegative. -/
def shadowLengthDay (cfg : ShadowCfg) (tanArg : ℚ) : ℚ :=
  max 0 (cfg.panel_height.getD (5/2) * tanArg)

/-- Shadow area for one day (both models, simulation_service.py lines 306-307 /
ml_service.py lines 187-188): `(panel_width + shadow_length * sin(panel_angle))
* panel_rows * panels_per_row`. -/
def shadowAreaDay (cfg : ShadowCfg) (sinAngle tanArg : ℚ) : ℚ :=
  (cfg.panel_width.getD 1 + shadowLengthDay cfg tanArg * sinAngle) *
    cfg.panel_rows.getD 10 * cfg.panels_per_row.getD 10

/-- Per-day shadow coverage percentage of
`MLService.calculate_shadow_patterns` (ml_service.py lines 191-194):
`min(1, shadow_area / field_size) * 100`. -/
def mlCoverageDayPct (cfg : ShadowCfg) (sinAngle tanArg : ℚ) : ℚ :=
  min 1 (shadowAreaDay cfg sinAngle tanArg / cfg.field_size.getD 10000) * 100

/-- Average shadow coverage percentage reported by
`MLService.calculate_shadow_patterns` (ml_service.py line 200): mean of the
per-day percentages (the code divides by the day count with no emptiness
guard). -/
def mlAvgCoveragePct (cfg : ShadowCfg) (sinAngle : ℚ) (tanArgs : List ℚ) : ℚ :=
  (tanArgs.map (mlCoverageDayPct cfg sinAngle)).sum / tanArgs.length

/-- Average shadow coverage percentage reported by the fallback path of
`SimulationService._simulate_shadow_patterns` (simulation_service.py lines
315-323): `sum(shadow_areas) / len(shadow_areas) / field_size * 100` — with no
`min(1, ·)` clamp — and `0` for an empty list. -/
def simAvgCoveragePct (cfg : ShadowCfg) (sinAngle : ℚ) (tanArgs : List ℚ) : ℚ :=
  if tanArgs = [] then 0
  else (tanArgs.map (shadowAreaDay cfg sinAngle)).sum / tanArgs.length /
    cfg.field_size.getD 10000 * 100

/-- Shadow configuration refuting claim C5: default panel geometry over a small
50 m² field. -/
def cfgSmallField : ShadowCfg := { field_size := some 50 }

/-- Claim C5 is false on the code: the average coverage reported by the
`_simulate_shadow_patterns` fallback applies no `min(1, ·)`.  With the default
panel geometry (height 2.5 m, width 1 m, 10×10 panels), a 50 m² field,
panel_angle 30° (so `sin = 1/2`) and a day whose tangent term is 1 — e.g.
elevation 45°, latitude = 75° + declination — the shadow area is 225 m² and the
reported average coverage is 450 %, far outside [0, 100]. -/
theorem c5_counterexample :
    simAvgCoveragePct cfgSmallField (1/2) [1] = 450 ∧
    ¬ simAvgCoveragePct cfgSmallField (1/2) [1] ≤ 100 := by
  have h : simAvgCoveragePct cfgSmallField (1/2) [1] = 450 := by
    simp only [simAvgCoveragePct, shadowAreaDay, shadowLengthDay, cfgSmallField,
      Option.getD_some, Option.getD_none, List.map_cons, List.map_nil, List.sum_cons,
      List.sum_nil, List.length_cons, List.length_nil, if_neg (List.cons_ne_nil 1 [])]
    norm_num
  exact ⟨h, by rw [h]; norm_num⟩

/-- Sum of a list of rationals bounded in [0, 100] is bounded by 100 times its
length. -/
theorem sum_bounds_of_forall_mem (l : List ℚ) (h : ∀ x ∈ l, 0 ≤ x ∧ x ≤ 100) :
    0 ≤ l.sum ∧ l.sum ≤ 100 * l.length := by
  induction l with
  | nil => simp
  | cons x xs ih =>
      have hx := h x (List.mem_cons_self x xs)
      have hxs := ih fun y hy => h y (List.mem_cons_of_mem x hy)
      constructor
      · simpa using add_nonneg hx.1 hxs.1
      · simp only [List.sum_cons, List.length_cons, Nat.cast_add, Nat.cast_one]
        calc x + xs.sum ≤ 100 + 100 * xs.length := add_le_add hx.2 hxs.2
        _ = 100 * (xs.length + 1) := by ring

/-- Amended claim C5: the per-day coverage of
`MLService.calculate_shadow_patterns` and its reported average do lie in
[0, 100] % for every valid geometry (nonnegative width, counts and field size,
panel angle in [0°, 90°] so the sine is nonnegative, any tangent term and hence
any latitude), because of the `min(1, shadow_area/field_size)` clamp and the
`max(0, ·)` clamp on the shadow length; the average reported by the
`_simulate_shadow_patterns` fallback has no such clamp and exceeds 100 % when
the shadow area exceeds the field size (`c5_counterexample`). -/
theorem c5_amended (cfg : ShadowCfg) (sinAngle : ℚ) (tanArgs : List ℚ)
    (hw : 0 ≤ cfg.panel_width.getD 1) (hs : 0 ≤ sinAngle)
    (hr : 0 ≤ cfg.panel_rows.getD 10) (hp : 0 ≤ cfg.panels_per_row.getD 10)
    (hf : 0 ≤ cfg.field_size.getD 10000) (hne : tanArgs ≠ []) :
    (∀ tanArg : ℚ, 0 ≤ mlCoverageDayPct cfg sinAngle tanArg ∧
      mlCoverageDayPct cfg sinAngle tanArg ≤ 100) ∧
    0 ≤ mlAvgCoveragePct cfg sinAngle tanArgs ∧
    mlAvgCoveragePct cfg sinAngle tanArgs ≤ 100 := by
  have hday : ∀ tanArg : ℚ, 0 ≤ mlCoverageDayPct cfg sinAngle tanArg ∧
      mlCoverageDayPct cfg sinAngle tanArg ≤ 100 := by
    intro tanArg
    have harea : 0 ≤ shadowAreaDay cfg sinAngle tanArg := by
      refine mul_nonneg (mul_nonneg (add_nonneg hw ?_) hr) hp
      exact mul_nonneg (le_max_left 0 _) hs
    have hcov0 : 0 ≤ min 1 (shadowAreaDay cfg sinAngle tanArg / cfg.field_size.getD 10000) :=
      le_min (by norm_num) (div_nonneg harea hf)
    have hcov1 : min 1 (shadowAreaDay cfg sinAngle tanArg / cfg.field_size.getD 10000) ≤ 1 :=
      min_le_left _ _
    constructor
    · exact mul_nonneg hcov0 (by norm_num)
    · calc mlCoverageDayPct cfg sinAngle tanArg
          ≤ 1 * 100 := by
            rw [mlCoverageDayPct]
            exact mul_le_mul_of_nonneg_right hcov1 (by norm_num)
      _ = 100 := one_mul 100
  refine ⟨hday, ?_, ?_⟩
  · have hsum := sum_bounds_of_forall_mem (tanArgs.map (mlCoverageDayPct cfg sinAngle))
      (by intro x hx
          obtain ⟨t, _, rfl⟩ := List.mem_map.mp hx
          exact hday t)
    rw [mlAvgCoveragePct]
    exact div_nonneg hsum.1 (Nat.cast_nonneg _)
  · have hsum := sum_bounds_of_forall_mem (tanArgs.map (mlCoverageDayPct cfg sinAngle))
      (by intro x hx
          obtain ⟨t, _, rfl⟩ := List.mem_map.mp hx
          exact hday t)
    have hlen : (0:ℚ) < tanArgs.length := by
      have : 0 < tanArgs.length := List.length_pos.mpr hne
      exact_mod_cast this
    rw [mlAvgCoveragePct]
    rw [div_le_iff₀ hlen]
    calc (tanArgs.map (mlCoverageDayPct cfg sinAngle)).sum
        ≤ 100 * (tanArgs.map (mlCoverageDayPct cfg sinAngle)).length := hsum.2
    _ = 100 * tanArgs.length := by rw [List.length_map]

/-- Witness for `c5_amended`: default geometry over the default 10000 m² field,
panel angle 30° (sine 1/2), a single day with tangent term 1. -/
theorem c5_witness :
    0 ≤ mlAvgCoveragePct {} (1/2) [1] ∧ mlAvgCoveragePct {} (1/2) [1] ≤ 100 := by
  have h := c5_amended {} (1/2) [1] (by norm_num) (by norm_num) (by norm_num)
    (by norm_num) (by norm_num) (by simp)
  exact ⟨h.2.1, h.2.2⟩

/-- Configuration dictionary fields read by
`SimulationService._calculate_financial_metrics` (simulation_service.py lines
396-475), each through `config.get(key, default)`. -/
structure FinConfig where
  panel_cost : Option ℚ := none
  num_panels : Option ℚ := none
  mounting_cost : Option ℚ := none
  inverter_cost : Option ℚ := none
  installation_cost : Option ℚ := none
  ag_equipment_cost : Option ℚ := none
  maintenance_cost_annual : Option ℚ := none
  insurance_cost_annual : Option ℚ := none
  labor_cost_annual : Option ℚ := none
  seeds_cost_annual : Option ℚ := none
  fertilizer_cost_annual : Option ℚ := none
  pesticide_cost_annual : Option ℚ := none
  water_cost_annual : Option ℚ := none
  ag_labor_cost_annual : Option ℚ := none
  energy_production_annual : Option ℚ := none
  energy_price : Option ℚ := none
  crop_yield_annual : Option ℚ := none
  crop_price : Option ℚ := none
  project_lifetime : Option ℚ := none

/-- Total CAPEX (simulation_service.py lines 400-414): panel and mounting costs
per panel, plus inverter, installation and agricultural equipment. -/
def totalCapex (c : FinConfig) : ℚ :=
  c.panel_cost.getD 250 * c.num_panels.getD 100 +
    c.mounting_cost.getD 150 * c.num_panels.getD 100 +
    c.inverter_cost.getD 10000 + c.installation_cost.getD 15000 +
    c.ag_equipment_cost.getD 5000

/-- Total annual OPEX (simulation_service.py lines 416-438): the eight annual
cost items summed. -/
def totalOpexAnnual (c : FinConfig) : ℚ :=
  c.maintenance_cost_annual.getD 1000 + c.insurance_cost_annual.getD 500 +
    c.labor_cost_annual.getD 2000 + c.seeds_cost_annual.getD 1000 +
    c.fertilizer_cost_annual.getD 500 + c.pesticide_cost_annual.getD 300 +
    c.water_cost_annual.getD 800 + c.ag_labor_cost_annual.getD 3000

/-- Annual net profit (simulation_service.py lines 440-453): energy plus crop
revenue minus OPEX. -/
def netProfitAnnual (c : FinConfig) : ℚ :=
  c.energy_production_annual.getD 40000 * c.energy_price.getD (3/25) +
    c.crop_yield_annual.getD 5000 * c.crop_price.getD (5/2) -
    totalOpexAnnual c

/-- Payback period (simulation_service.py line 454): `total_capex /
net_profit_annual if net_profit_annual > 0 else float(inf)`; the `float(inf)`
sentinel is embedded as `⊤` in `WithTop ℚ`. -/
def paybackPeriodYears (c : FinConfig) : WithTop ℚ :=
  if 0 < netProfitAnnual c then (totalCapex c / netProfitAnnual c : ℚ) else ⊤

/-- Levelized cost of energy (simulation_service.py lines 472-475):
`(capex + opex·lifetime) / (energy_annual·lifetime)` when the lifetime energy is
positive, else the `float(inf)` sentinel `⊤`. -/
def lcoe (c : FinConfig) : WithTop ℚ :=
  let total_lifetime_energy := c.energy_production_annual.getD 40000 * c.project_lifetime.getD 25
  let total_lifetime_cost := totalCapex c + totalOpexAnnual c * c.project_lifetime.getD 25
  if 0 < total_lifetime_energy then (total_lifetime_cost / total_lifetime_energy : ℚ) else ⊤

/-- Capacity factor reported by `_simulate_energy_production`
(simulation_service.py line 168): `avg_daily_energy / (24 * panel_efficiency *
panel_area * num_panels)` guarded by `panel_efficiency * panel_area * num_panels
> 0`, else `0`. -/
def capacityFactor (config : Config) (avg_daily_energy : ℚ) : ℚ :=
  let panel_efficiency := config.panel_efficiency.getD (1/5)
  let panel_area := config.panel_area.getD (17/10)
  let num_panels := config.num_panels.getD 100
  if 0 < panel_efficiency * panel_area * num_panels then
    avg_daily_energy / (24 * panel_efficiency * panel_area * num_panels)
  else 0

/-- Claim C6: the three division-guarded metrics are total functions producing
the claimed sentinels: payback is `capex / net_profit` when the net profit is
positive and `+∞` (`⊤`) otherwise; LCOE is lifetime cost over lifetime energy
when the lifetime energy is positive and `+∞` otherwise; the capacity factor is
`avg / (24·panel_efficiency·panel_area·num_panels)` when that denominator is
positive and `0` otherwise (the code tests `panel_efficiency*panel_area*
num_panels > 0`, equivalent to positivity of the denominator). -/
theorem c6_sentinels (c : FinConfig) (config : Config) (avg_daily_energy : ℚ) :
    (0 < netProfitAnnual c →
      paybackPeriodYears c = (totalCapex c / netProfitAnnual c : ℚ)) ∧
    (netProfitAnnual c ≤ 0 → paybackPeriodYears c = ⊤) ∧
    (0 < c.energy_production_annual.getD 40000 * c.project_lifetime.getD 25 →
      lcoe c = ((totalCapex c + totalOpexAnnual c * c.project_lifetime.getD 25) /
        (c.energy_production_annual.getD 40000 * c.project_lifetime.getD 25) : ℚ)) ∧
    (c.energy_production_annual.getD 40000 * c.project_lifetime.getD 25 ≤ 0 →
      lcoe c = ⊤) ∧
    (0 < 24 * (config.panel_efficiency.getD (1/5) * config.panel_area.getD (17/10) *
        config.num_panels.getD 100) →
      capacityFactor config avg_daily_energy =
        avg_daily_energy / (24 * config.panel_efficiency.getD (1/5) *
          config.panel_area.getD (17/10) * config.num_panels.getD 100)) ∧
    (24 * (config.panel_efficiency.getD (1/5) * config.panel_area.getD (17/10) *
        config.num_panels.getD 100) ≤ 0 →
      capacityFactor config avg_daily_energy = 0) := by
  refine ⟨?_, ?_, ?_, ?_, ?_, ?_⟩
  · intro h; rw [paybackPeriodYears, if_pos h]
  · intro h; rw [paybackPeriodYears, if_neg (not_lt.mpr h)]
  · intro h; rw [lcoe]; simp only [if_pos h]
  · intro h; rw [lcoe]; simp only [if_neg (not_lt.mpr h)]
  · intro h
    have h3 : 0 < config.panel_efficiency.getD (1/5) * config.panel_area.getD (17/10) *
        config.num_panels.getD 100 := by linarith
    rw [capacityFactor]
    simp only [if_pos h3]
  · intro h
    have h3 : ¬ 0 < config.panel_efficiency.getD (1/5) * config.panel_area.getD (17/10) *
        config.num_panels.getD 100 := by
      intro hpos; linarith
    rw [capacityFactor]
    simp only [if_neg h3]

/-- Financial configuration with zero revenue: no energy production and no crop
yield, so the net profit is the negated default OPEX. -/
def finZeroRevenue : FinConfig :=
  { energy_production_annual := some 0, crop_yield_annual := some 0 }

/-- Configuration with zero panel efficiency, zeroing the capacity-factor
denominator. -/
def cfgZeroEff : Config := { panel_efficiency := some 0 }

/-- Witness for `c6_sentinels`: with zero energy production and crop yield the
net profit is −9100 and the payback is the `+∞` sentinel, the lifetime energy is
0 and the LCOE is the `+∞` sentinel; with zero panel efficiency the capacity
factor is the `0` sentinel; with all defaults the payback takes its division
branch (70000 / 8200 years). -/
theorem c6_witness :
    paybackPeriodYears finZeroRevenue = ⊤ ∧
    lcoe finZeroRevenue = ⊤ ∧
    capacityFactor cfgZeroEff 5 = 0 ∧
    paybackPeriodYears {} = ((70000 : ℚ) / 8200 : ℚ) := by
  have h1 := c6_sentinels finZeroRevenue cfgZeroEff 5
  have h2 := c6_sentinels {} {} 816
  have ha1 : netProfitAnnual finZeroRevenue ≤ 0 := by
    norm_num [netProfitAnnual, totalOpexAnnual, finZeroRevenue]
  have ha2 : finZeroRevenue.energy_production_annual.getD 40000 *
      finZeroRevenue.project_lifetime.getD 25 ≤ 0 := by
    norm_num [finZeroRevenue]
  have ha3 : 24 * (cfgZeroEff.panel_efficiency.getD (1/5) * cfgZeroEff.panel_area.getD (17/10) *
      cfgZeroEff.num_panels.getD 100) ≤ 0 := by
    norm_num [cfgZeroEff]
  have ha4 : 0 < netProfitAnnual ({} : FinConfig) := by
    norm_num [netProfitAnnual, totalOpexAnnual]
  have hx : totalCapex ({} : FinConfig) / netProfitAnnual {} = (70000 : ℚ) / 8200 := by
    norm_num [totalCapex, netProfitAnnual, totalOpexAnnual]
  refine ⟨h1.2.1 ha1, h1.2.2.2.1 ha2, h1.2.2.2.2.2 ha3, ?_⟩
  rw [h2.1 ha4, hx]

/-- Candidate configuration produced by
`MLService._generate_candidate_configurations` (ml_service.py lines 393-429):
four uniformly sampled numeric parameters plus a tracking type.  The random
sampling itself is abstracted: the optimizer theorems quantify over the sampled
candidate list. -/
structure Candidate where
  panel_height : ℚ
  panel_angle : ℚ
  panel_spacing : ℚ
  irrigation_amount : ℚ
  tracking_type : String

/-- Optimization-goal weights dictionary (keys `energy` and `crop`, both read
with default 0.5). -/
structure Goals where
  energy : Option ℚ := none
  crop : Option ℚ := none

/-- Score of one candidate in `MLService._simplified_optimization`
(ml_service.py lines 488-504): an energy score from the distance of the panel
angle to 30°, a crop score from the height/spacing shade factor (clamped by
`min(1, ·)`), combined with the goal weights. -/
def scoreCandidate (goals : Goals) (c : Candidate) : ℚ :=
  let energy_weight := goals.energy.getD (1/2)
  let crop_weight := goals.crop.getD (1/2)
  let angle_diff := |c.panel_angle - 30|
  let energy_score := 1 - angle_diff / 30
  let shade_factor := min 1 (c.panel_height / c.panel_spacing * (3/2))
  let crop_score := 1 - shade_factor * (1 - 7/10)
  energy_weight * energy_score + crop_weight * crop_score

/-- Index of the first maximum of a list (the behavior of `np.argmax`, which
`_simplified_optimization` uses to select the best candidate); 0 on the empty
list, where `np.argmax` raises. -/
def argmaxIdx : List ℚ → ℕ
  | [] => 0
  | [_] => 0
  | x :: y :: ys =>
      let r := argmaxIdx (y :: ys)
      if x < (y :: ys).getD r 0 then r + 1 else 0

/-- Best candidate returned by `MLService._simplified_optimization`
(ml_service.py lines 476-509): `candidates[np.argmax(scores)]`, taking the
already-sampled candidate list as input (`none` on the empty list, where the
indexing would raise). -/
def simplifiedOptimization (goals : Goals) (candidates : List Candidate) :
    Option Candidate :=
  candidates[argmaxIdx (candidates.map (scoreCandidate goals))]?

/-- The first-maximum index is within bounds on a non-empty list. -/
theorem argmaxIdx_lt_length (l : List ℚ) (h : l ≠ []) : argmaxIdx l < l.length := by
  induction l with
  | nil => exact absurd rfl h
  | cons x xs ih =>
      rcases xs with _ | ⟨y, ys⟩
      · simp [argmaxIdx]
      · rw [argmaxIdx]
        split
        · have := ih (List.cons_ne_nil y ys)
          simpa [Nat.succ_lt_succ_iff] using this
        · simp

/-- Every entry of the list is bounded by the entry at the first-maximum
index. -/
theorem argmaxIdx_is_max (l : List ℚ) (j : ℕ) (hj : j < l.length) :
    l.getD j 0 ≤ l.getD (argmaxIdx l) 0 := by
  induction l generalizing j with
  | nil => simp at hj
  | cons x xs ih =>
      rcases xs with _ | ⟨y, ys⟩
      · rcases j with _ | j
        · simp [argmaxIdx]
        · simp [Nat.succ_lt_succ_iff] at hj
      · rw [argmaxIdx]
        split
        · rename_i hlt
          rcases j with _ | j
          · simpa using le_of_lt hlt
          · have hj2 : j < (y :: ys).length := by simpa [Nat.succ_lt_succ_iff] using hj
            simpa using ih j hj2
        · rename_i hge
          rcases j with _ | j
          · simp
          · have hj2 : j < (y :: ys).length := by simpa [Nat.succ_lt_succ_iff] using hj
            have h1 : (y :: ys).getD j 0 ≤ (y :: ys).getD (argmaxIdx (y :: ys)) 0 := ih j hj2
            have h2 : (y :: ys).getD (argmaxIdx (y :: ys)) 0 ≤ x := not_lt.mp hge
            simpa using le_trans h1 h2

/-- Entries strictly before the first-maximum index are strictly below the
maximum: the first of several maxima wins. -/
theorem argmaxIdx_first (l : List ℚ) (j : ℕ) (hj : j < argmaxIdx l) :
    l.getD j 0 < l.getD (argmaxIdx l) 0 := by
  induction l generalizing j with
  | nil => simp [argmaxIdx] at hj
  | cons x xs ih =>
      rcases xs with _ | ⟨y, ys⟩
      · simp [argmaxIdx] at hj
      · rw [argmaxIdx] at hj ⊢
        split
        · rename_i hlt
          rw [if_pos hlt] at hj
          rcases j with _ | j
          · simpa using hlt
          · have hj2 : j < argmaxIdx (y :: ys) := by omega
            simpa using ih j hj2
        · rename_i hge
          rw [if_neg hge] at hj
          omega

/-- Claim C7: for every goal weighting and every non-empty sampled candidate
list, `_simplified_optimization` returns the candidate at the first-maximum
score index (`np.argmax` semantics): the returned candidate is one of the
sampled candidates, its score is ≥ the score of every sampled candidate, and
every candidate strictly earlier in sampling order has a strictly smaller
score, so the first of several tied maxima is the one returned. -/
theorem c7_optimizer_argmax (goals : Goals) (candidates : List Candidate)
    (h : candidates ≠ []) :
    ∃ best : Candidate,
      simplifiedOptimization goals candidates = some best ∧
      best ∈ candidates ∧
      (∀ c ∈ candidates, scoreCandidate goals c ≤ scoreCandidate goals best) ∧
      (∀ j : ℕ, j < argmaxIdx (candidates.map (scoreCandidate goals)) →
        (candidates.map (scoreCandidate goals)).getD j 0 < scoreCandidate goals best) := by
  have hne : candidates.map (scoreCandidate goals) ≠ [] := by
    intro hnil
    exact h (List.map_eq_nil_iff.mp hnil)
  have hi0 : argmaxIdx (candidates.map (scoreCandidate goals)) <
      (candidates.map (scoreCandidate goals)).length :=
    argmaxIdx_lt_length _ hne
  have hi : argmaxIdx (candidates.map (scoreCandidate goals)) < candidates.length := by
    simpa using hi0
  have hbestscore :
      (candidates.map (scoreCandidate goals)).getD
          (argmaxIdx (candidates.map (scoreCandidate goals))) 0 =
        scoreCandidate goals (candidates[argmaxIdx (candidates.map (scoreCandidate goals))]) := by
    rw [List.getD_eq_getElem _ 0 hi0]
    exact List.getElem_map _
  refine ⟨candidates[argmaxIdx (candidates.map (scoreCandidate goals))], ?_, ?_, ?_, ?_⟩
  · rw [simplifiedOptimization]
    exact List.getElem?_eq_getElem hi
  · exact List.getElem_mem hi
  · intro c hc
    obtain ⟨j, hjlen, rfl⟩ := List.mem_iff_getElem.mp hc
    have hjlen2 : j < (candidates.map (scoreCandidate goals)).length := by simpa using hjlen
    have h1 := argmaxIdx_is_max (candidates.map (scoreCandidate goals)) j hjlen2
    rw [hbestscore, List.getD_eq_getElem _ 0 hjlen2] at h1
    calc scoreCandidate goals candidates[j]
        = (candidates.map (scoreCandidate goals))[j] := (List.getElem_map _).symm
      _ ≤ _ := h1
  · intro j hj
    have h1 := argmaxIdx_first (candidates.map (scoreCandidate goals)) j hj
    rwa [hbestscore] at h1

/-- Candidate used by the optimizer witness: the default-like configuration
with panel angle 30°. -/
def candA : Candidate :=
  { panel_height := 5/2, panel_angle := 30, panel_spacing := 5,
    irrigation_amount := 5, tracking_type := "fixed" }

/-- Second candidate with a worse angle, for the witness list. -/
def candB : Candidate :=
  { panel_height := 4, panel_angle := 10, panel_spacing := 3,
    irrigation_amount := 0, tracking_type := "fixed" }

/-- Witness for `c7_optimizer_argmax` on the concrete two-candidate list
`[candA, candB]` with default goal weights. -/
theorem c7_witness :
    ∃ best : Candidate,
      simplifiedOptimization {} [candA, candB] = some best ∧
      best ∈ [candA, candB] ∧
      (∀ c ∈ [candA, candB], scoreCandidate {} c ≤ scoreCandidate {} best) ∧
      (∀ j : ℕ, j < argmaxIdx ([candA, candB].map (scoreCandidate {})) →
        ([candA, candB].map (scoreCandidate {})).getD j 0 < scoreCandidate {} best) :=
  c7_optimizer_argmax {} [candA, candB] (by simp)

/-- Status of a simulation run (the `status` column written by
`SimulationService.run_simulation`). -/
inductive SimStatus where
  | pending
  | running
  | completed
  | failed
deriving DecidableEq

/-- Results container assembled by `run_simulation` (simulation_service.py
lines 53-61): the six model outputs of one completed run. -/
structure SimResults where
  energy_production : List ℚ
  crop_yield : ℚ
  shadow_patterns : List ℚ
  water_usage : Option ℝ
  financial_payback : WithTop ℚ
  environmental_carbon : ℚ

/-- Persisted simulation row: status, results (either the full `SimResults` or
the `{"error": str(e)}` marker, embedded as `Except String SimResults`), and
the completion timestamp. -/
structure SimRecord where
  status : SimStatus
  results : Option (Except String SimResults)
  completed_at : Option ℚ

/-- Orchestration of `SimulationService.run_simulation`
(simulation_service.py lines 22-73): return immediately when the row is
missing; otherwise set the status to running, run the model pipeline — whose
outcome, success with a full `SimResults` or any raised error, is the
`pipeline` argument — and on success store status completed, the full results
and the completion time, while on any error store status failed and the
error-marker result.  The function is total: no outcome propagates an
exception to the caller. -/
def runSimulation (sim0 : Option SimRecord) (pipeline : Except String SimResults)
    (now : ℚ) : Option SimRecord :=
  match sim0 with
  | none => none
  | some sim =>
      let sim1 : SimRecord := { sim with status := .running }
      match pipeline with
      | .ok r =>
          some { sim1 with
                  status := .completed, results := some (.ok r), completed_at := some now }
      | .error e =>
          some { sim1 with status := .failed, results := some (.error e) }

/-- Claim C8: once a run is entered, `run_simulation` never propagates a model
error — it is a total function of the pipeline outcome.  If any model raises
`e`, the run ends failed with the result holding only the error marker (no
model outputs; the pre-existing completed_at is untouched, as in the source).
If no model raises, the run ends completed with the full result and
completed_at set to the completion time. -/
theorem c8_state_machine (sim : SimRecord) (r : SimResults) (e : String)
    (p : Except String SimResults) (now : ℚ) :
    runSimulation none p now = none ∧
    runSimulation (some sim) (.ok r) now =
      some { status := .completed, results := some (.ok r), completed_at := some now } ∧
    runSimulation (some sim) (.error e) now =
      some { status := .failed, results := some (.error e),
             completed_at := sim.completed_at } := by
  exact ⟨rfl, rfl, rfl⟩

/-- NaN-tracking square root: `np.sqrt` of a negative float is NaN (`none`
here), otherwise the real square root. -/
noncomputable def naSqrt (x : ℝ) : Option ℝ :=
  if x < 0 then none else some (Real.sqrt x)

/-- NaN-propagating addition of floats. -/
def naAdd (a b : Option ℝ) : Option ℝ :=
  a.bind fun x => b.map fun y => x + y

/-- Python `sum` over NaN-tracking floats: NaN as soon as one term is NaN. -/
def naSum (l : List (Option ℝ)) : Option ℝ :=
  l.foldr naAdd (some 0)

/-- Python builtin `max(0, v)`: the two-argument `max` keeps its first argument
unless the second compares greater, so `max(0, nan)` is `0` (every comparison
with NaN is false). -/
def pyMaxZero : Option ℝ → Option ℝ
  | none => some 0
  | some v => some (max 0 v)

/-- Weather fields read by `SimulationService._simulate_water_usage`, over ℝ
with the NaN-tracking wrapper. -/
structure WaterDay where
  temperature_high : Option ℝ := none
  temperature_low : Option ℝ := none
  precipitation : Option ℝ := none

/-- Configuration fields read by `_simulate_water_usage`. -/
structure WaterCfg where
  field_size : Option ℝ := none
  irrigation_efficiency : Option ℝ := none
  crop_coefficient : Option ℝ := none
  shadow_coverage_percent : Option ℝ := none
  evaporation_reduction_factor : Option ℝ := none

/-- Reference evapotranspiration of `_simulate_water_usage`
(simulation_service.py line 362): `0.0023 * (temp_avg + 17.8) *
sqrt(temperature_high - temperature_low) * 6`, with defaults 25/15 °C; the
square root of a negative difference is NaN and propagates through the
products. -/
noncomputable def et0Day (day : WaterDay) : Option ℝ :=
  let temp_avg := (day.temperature_high.getD 25 + day.temperature_low.getD 15) / 2
  (naSqrt (day.temperature_high.getD 25 - day.temperature_low.getD 15)).map
    fun s => 23/10000 * (temp_avg + 89/5) * s * 6

/-- Daily crop water need `etc = et0 * crop_coefficient`
(simulation_service.py line 365). -/
noncomputable def dailyWaterNeed (cfg : WaterCfg) (day : WaterDay) : Option ℝ :=
  (et0Day day).map fun e => e * cfg.crop_coefficient.getD 1

/-- Daily irrigation need `max(0, etc - precip)` (simulation_service.py line
369), using the Python `max(0, ·)` that maps NaN to 0. -/
noncomputable def dailyIrrigationNeed (cfg : WaterCfg) (day : WaterDay) : Option ℝ :=
  pyMaxZero ((dailyWaterNeed cfg day).map fun e => e - day.precipitation.getD 0)

/-- Total water requirement in m³ (simulation_service.py line 373):
`sum(daily_water_needs) * field_size / 1000`. -/
noncomputable def totalWaterRequirement (cfg : WaterCfg) (days : List WaterDay) : Option ℝ :=
  (naSum (days.map (dailyWaterNeed cfg))).map
    fun s => s * cfg.field_size.getD 10000 / 1000

/-- Actual irrigation volume in m³ (simulation_service.py lines 374-378):
`sum(daily_irrigation_needs) * field_size / 1000 / irrigation_efficiency`. -/
noncomputable def totalIrrigationVolume (cfg : WaterCfg) (days : List WaterDay) : Option ℝ :=
  ((naSum (days.map (dailyIrrigationNeed cfg))).map
      fun s => s * cfg.field_size.getD 10000 / 1000).map
    fun t => t / cfg.irrigation_efficiency.getD (17/20)

/-- Water savings volume (simulation_service.py lines 381-383):
`total_water_need * (shadow_coverage_percent/100) *
evaporation_reduction_factor`. -/
noncomputable def waterSavingsVolume (cfg : WaterCfg) (days : List WaterDay) : Option ℝ :=
  (totalWaterRequirement cfg days).map
    fun t => t * (cfg.shadow_coverage_percent.getD 30 / 100 *
      cfg.evaporation_reduction_factor.getD (3/10))

/-- A NaN-propagating sum with a NaN term is NaN. -/
theorem naSum_eq_none (l : List (Option ℝ)) (h : none ∈ l) : naSum l = none := by
  induction l with
  | nil => simp at h
  | cons a as ih =>
      rcases List.mem_cons.mp h with ha | ha
      · rw [naSum, List.foldr_cons, ← ha]
        rfl
      · rcases a with _ | x
        · rfl
        · rw [naSum, List.foldr_cons]
          have : naSum as = none := ih ha
          rw [naSum] at this
          rw [this]
          rfl

/-- Day with `temperature_high` 15 °C strictly below `temperature_low` 25 °C. -/
def dayInverted : WaterDay :=
  { temperature_high := some 15, temperature_low := some 25 }

/-- Claim C9 is false in one particular: with temperature_high 15 < 25
temperature_low the daily water need is indeed NaN (`none`), but not every
total derived from it is — the daily irrigation need passes through Python
`max(0, nan)`, which yields the number 0, so the total irrigation volume is the
plain number 0, not NaN. -/
theorem c9_counterexample :
    dayInverted.temperature_high = some 15 ∧ dayInverted.temperature_low = some 25 ∧
    (15:ℝ) < 25 ∧
    dailyWaterNeed {} dayInverted = none ∧
    totalIrrigationVolume {} [dayInverted] = some 0 ∧
    totalIrrigationVolume {} [dayInverted] ≠ none := by
  have hsq : naSqrt (dayInverted.temperature_high.getD 25 -
      dayInverted.temperature_low.getD 15) = none := by
    rw [naSqrt, if_pos]
    show dayInverted.temperature_high.getD 25 - dayInverted.temperature_low.getD 15 < 0
    norm_num [dayInverted]
  have hneed : dailyWaterNeed {} dayInverted = none := by
    rw [dailyWaterNeed, et0Day, hsq]
    rfl
  have hirr : dailyIrrigationNeed {} dayInverted = some 0 := by
    rw [dailyIrrigationNeed, hneed]
    rfl
  have hvol : totalIrrigationVolume {} [dayInverted] = some 0 := by
    rw [totalIrrigationVolume, List.map_cons, List.map_nil, hirr]
    show ((naAdd (some 0) (some 0)).map _).map _ = some 0
    norm_num [naAdd]
  exact ⟨rfl, rfl, by norm_num, hneed, hvol, by rw [hvol]; exact Option.some_ne_none 0⟩

/-- Amended claim C9: for every weather day with temperature_high <
temperature_low the model takes the square root of a negative number with no
guard, so the daily water need is NaN and so are the total water requirement
and the water-savings volume of every series containing such a day; the daily
irrigation need, however, is `max(0, etc - precip)`, which Python evaluates to
0 on NaN, so the total irrigation volume of a single-day series is the number 0
rather than NaN. -/
theorem c9_amended (cfg : WaterCfg) (day : WaterDay) (th tl : ℝ)
    (hth : day.temperature_high = some th) (htl : day.temperature_low = some tl)
    (hlt : th < tl) :
    dailyWaterNeed cfg day = none ∧
    dailyIrrigationNeed cfg day = some 0 ∧
    (∀ days : List WaterDay, day ∈ days →
      totalWaterRequirement cfg days = none ∧ waterSavingsVolume cfg days = none) ∧
    totalIrrigationVolume cfg [day] = some 0 := by
  have hsq : naSqrt (day.temperature_high.getD 25 - day.temperature_low.getD 15) = none := by
    rw [naSqrt, if_pos]
    rw [hth, htl]
    show th - tl < 0
    linarith
  have hneed : dailyWaterNeed cfg day = none := by
    rw [dailyWaterNeed, et0Day, hsq]
    rfl
  have hirr : dailyIrrigationNeed cfg day = some 0 := by
    rw [dailyIrrigationNeed, hneed]
    rfl
  refine ⟨hneed, hirr, ?_, ?_⟩
  · intro days hmem
    have hnone : none ∈ days.map (dailyWaterNeed cfg) := by
      rw [← hneed]
      exact List.mem_map_of_mem (dailyWaterNeed cfg) hmem
    have hsum : naSum (days.map (dailyWaterNeed cfg)) = none := naSum_eq_none _ hnone
    constructor
    · rw [totalWaterRequirement, hsum]
      rfl
    · rw [waterSavingsVolume, totalWaterRequirement, hsum]
      rfl
  · rw [totalIrrigationVolume, List.map_cons, List.map_nil, hirr]
    show ((naAdd (some 0) (some 0)).map _).map _ = some 0
    norm_num [naAdd]

/-- Witness for `c9_amended` at the concrete inverted-temperature day. -/
theorem c9_witness :
    dailyWaterNeed {} dayInverted = none ∧
    dailyIrrigationNeed {} dayInverted = some 0 ∧
    totalWaterRequirement {} [dayInverted] = none ∧
    waterSavingsVolume {} [dayInverted] = none := by
  have h := c9_amended {} dayInverted 15 25 rfl rfl (by norm_num)
  have h3 := h.2.2.1 [dayInverted] (List.mem_singleton.mpr rfl)
  exact ⟨h.1, h.2.1, h3.1, h3.2⟩

end Agrivoltaics
